import Mathlib

/-!
Shallow embedding of `src/rust/engine/src/context.rs` of the pants engine:
the service registry (`Core`), its fork-safety protocol (`pre_fork`), and the
per-computation `Context`.  Collaborator modules (`resettable`, `fs`,
`process_execution`, `graph`, `handles`, `rule_graph`) are not part of the
source excerpt; the definitions for them below are modelled from the spec's
contracts and are marked as such in their doc comments.
-/

namespace PantsCore

/-- Opaque node-slot identifier (`graph::EntryId`). -/
abbrev EntryId := Nat

/-- Opaque type identifier (`core::TypeId`). -/
abbrev TypeId := Nat

/-- Opaque task/rule definitions (`tasks::Tasks`); treated as pure data. -/
abbrev Tasks := List Nat

/-- Opaque type registry (`types::Types`); treated as pure data. -/
abbrev Types := Nat

/-- Modelled from the spec (§4.1): the resettable resource holder of the
`resettable` module (not under src/).  Instances are tracked by generation
number: `current` is the generation of the cached live instance if any, and
`builds` counts factory invocations so far (the next fresh generation). -/
structure Resettable where
  current : Option Nat
  builds : Nat
deriving Repr, DecidableEq

/-- A fresh holder: nothing built yet. -/
def Resettable.new : Resettable :=
  { current := none, builds := 0 }

/-- Modelled from the spec (§4.1): `get` returns the existing instance, or
invokes the factory exactly once to produce and cache a fresh one. -/
def Resettable.get (r : Resettable) : Resettable × Nat :=
  match r.current with
  | some g => (r, g)
  | none => ({ current := some r.builds, builds := r.builds + 1 }, r.builds)

/-- Modelled from the spec (§4.1): `reset` atomically discards the current
instance without invoking the factory. -/
def Resettable.reset (r : Resettable) : Resettable :=
  { r with current := none }

/-- The holder `r` has no cached instance, so its next `get` invokes the
factory: it returns the fresh generation `r.builds`, caches it, and bumps the
build counter. -/
def Resettable.rebuildsOnNextGet (r : Resettable) : Prop :=
  r.current = none ∧
  (r.get).2 = r.builds ∧
  (r.get).1.current = some r.builds ∧
  (r.get).1.builds = r.builds + 1

/-- Modelled from the spec (§4.2): `fs::ResettablePool`, a resettable pool of
blocking-I/O workers (not under src/).  `ref` is the identity of the `Arc`
allocation holding the pool, used to express sharing. -/
structure ResettablePool where
  ref : Nat
  name : String
  holder : Resettable
deriving Repr, DecidableEq

/-- `ResettablePool::new(name)`, allocated at reference identity `ref`. -/
def ResettablePool.new (ref : Nat) (name : String) : ResettablePool :=
  { ref := ref, name := name, holder := Resettable.new }

/-- Modelled from the spec (§4.2): pool reset discards the worker pool
instance; identity and name are unchanged. -/
def ResettablePool.reset (p : ResettablePool) : ResettablePool :=
  { p with holder := p.holder.reset }

/-- Whether the store was constructed local-only or local-plus-remote, with
the remote tier's parameters (address, replica count, maximum chunk size in
bytes, request timeout in seconds). -/
inductive StoreMode where
  | localOnly : StoreMode
  | withRemote (address : String) (replicas : Nat) (chunkSizeBytes : Nat)
      (timeoutSecs : Nat) : StoreMode
deriving Repr, DecidableEq

/-- Modelled from the spec (§4.4): the content-addressed store (`fs::Store`,
not under src/).  `ref` is the identity of the store instance (clones share
it), `pool_ref` the identity of the worker pool it was given, and `pooled`
its pooled connections/handles, dropped by `reset_prefork`. -/
structure Store where
  ref : Nat
  path : List String
  pool_ref : Nat
  mode : StoreMode
  pooled : Resettable
deriving Repr, DecidableEq

/-- Environment facts `Core::new` depends on: the home directory reported by
`std::env::home_dir`, and whether each fallible initialization step
(creating the store's backing directory, opening the store, constructing the
filesystem view from the build root) succeeds. -/
structure Env where
  home_dir : Option (List String)
  create_dir_ok : Bool
  store_init_ok : Bool
  vfs_ok : Bool
deriving Repr, DecidableEq

/-- Modelled from the spec (§4.4): `Store::local_only(path, pool)`, fallible. -/
def Store.local_only (ref : Nat) (path : List String) (pool_ref : Nat)
    (env : Env) : Except String Store :=
  if env.store_init_ok then
    .ok { ref := ref, path := path, pool_ref := pool_ref, mode := .localOnly,
          pooled := Resettable.new }
  else .error "could not open store"

/-- Modelled from the spec (§4.4): `Store::with_remote(path, pool, address,
replicas, chunk_size, timeout)`, fallible. -/
def Store.with_remote (ref : Nat) (path : List String) (pool_ref : Nat)
    (address : String) (replicas : Nat) (chunkSizeBytes : Nat)
    (timeoutSecs : Nat) (env : Env) : Except String Store :=
  if env.store_init_ok then
    .ok { ref := ref, path := path, pool_ref := pool_ref,
          mode := .withRemote address replicas chunkSizeBytes timeoutSecs,
          pooled := Resettable.new }
  else .error "could not open store"

/-- Modelled from the spec (§4.4): `Store::reset_prefork` drops pooled
connections/handles; everything else about the store is unchanged. -/
def Store.reset_prefork (s : Store) : Store :=
  { s with pooled := s.pooled.reset }

/-- Modelled from the spec (§6): the filesystem view (`fs::PosixFS`, not
under src/), constructed from the build root, a worker pool and ignore
patterns; fails with an initialization error if the root is inaccessible. -/
structure PosixFS where
  build_root : List String
  pool_ref : Nat
  ignore_patterns : List String
deriving Repr, DecidableEq

/-- Modelled from the spec (§6): `PosixFS::new(build_root, pool,
ignore_patterns)`, fallible when the root is inaccessible. -/
def PosixFS.new (build_root : List String) (pool_ref : Nat)
    (ignore_patterns : List String) (env : Env) : Except String PosixFS :=
  if env.vfs_ok then
    .ok { build_root := build_root, pool_ref := pool_ref,
          ignore_patterns := ignore_patterns }
  else .error "build root inaccessible"

/-- Modelled from the spec (§6): the computation graph collaborator
(`graph::Graph`, not under src/): a memoization table plus, for this
embedding, a log of the `get` requests it received with the node-slot
identifier each was scoped to. -/
structure Graph where
  memo : List (Nat × Nat)
  requests : List (EntryId × Nat)
deriving Repr, DecidableEq

/-- `Graph::new()`: empty memoization table, no requests yet. -/
def Graph.new : Graph :=
  { memo := [], requests := [] }

/-- Modelled from the spec (§6): `graph.get(slot_id, context, node)` records
the request edge scoped to `slot_id` and returns the (deferred) result for
the node from the memoization table. -/
def Graph.get (g : Graph) (slot_id : EntryId) (node : Nat) : Graph × Nat :=
  ({ g with requests := g.requests ++ [(slot_id, node)] },
   ((g.memo.lookup node).getD 0))

/-- Modelled from the spec (§6): the rule graph collaborator
(`rule_graph::RuleGraph`, not under src/); pure, immutable after
construction from the task definitions and root subject types. -/
structure RuleGraph where
  tasks : Tasks
  root_subject_types : List TypeId
deriving Repr, DecidableEq

/-- `RuleGraph::new(&tasks, root_subject_types)`. -/
def RuleGraph.new (tasks : Tasks) (root_subject_types : List TypeId) :
    RuleGraph :=
  { tasks := tasks, root_subject_types := root_subject_types }

/-- Modelled from the spec (§4.3, §6): the execution backend
(`process_execution::local::CommandRunner` or
`process_execution::remote::CommandRunner`, not under src/).  The local
backend is built from a store and a worker pool (held by reference
identity); the remote one from a network address, a parallelism and a
store. -/
inductive UnderlyingCommandRunner where
  | localRunner (store_ref : Nat) (pool_ref : Nat) : UnderlyingCommandRunner
  | remoteRunner (address : String) (parallelism : Nat) (store_ref : Nat) :
      UnderlyingCommandRunner
deriving Repr, DecidableEq

/-- Modelled from the spec (§4.3): the bounded execution gateway
(`process_execution::BoundedCommandRunner`, not under src/): an underlying
backend, a fixed admission bound, and the backend-level pooled state dropped
by `reset_prefork`. -/
structure BoundedCommandRunner where
  inner : UnderlyingCommandRunner
  bound : Nat
  backendPooled : Resettable
deriving Repr, DecidableEq

/-- `BoundedCommandRunner::new(inner, bound)`. -/
def BoundedCommandRunner.new (inner : UnderlyingCommandRunner) (bound : Nat) :
    BoundedCommandRunner :=
  { inner := inner, bound := bound, backendPooled := Resettable.new }

/-- Modelled from the spec (§4.3): `reset_prefork` delegates to the backend's
own fork-safety reset (dropping backend-level pooled state) and does not
reset the admission bound or change the backend selection. -/
def BoundedCommandRunner.reset_prefork (r : BoundedCommandRunner) :
    BoundedCommandRunner :=
  { r with backendPooled := r.backendPooled.reset }

/-- Modelled from the spec (§4.3): where `run` dispatches: over the network
to the remote backend's address, or nowhere (locally) for a local backend. -/
def BoundedCommandRunner.dispatchAddress (r : BoundedCommandRunner) :
    Option String :=
  match r.inner with
  | .localRunner _ _ => none
  | .remoteRunner address _ _ => some address

/-- The service registry `Core` (context.rs, lines 30–40). -/
structure Core where
  graph : Graph
  tasks : Tasks
  rule_graph : RuleGraph
  types : Types
  fs_pool : ResettablePool
  runtime : Resettable
  store : Store
  vfs : PosixFS
  command_runner : BoundedCommandRunner
deriving Repr, DecidableEq

/-- Outcome of `Core::new`: either a constructed registry, or a `panic!`
(process termination).  The Rust constructor has no error return type; every
initialization failure is a panic. -/
inductive InitOutcome where
  | ok (core : Core) : InitOutcome
  | panicked (msg : String) : InitOutcome
deriving Repr, DecidableEq

/-- Extract the registry from an `ok` outcome, with a default. -/
def InitOutcome.getD (o : InitOutcome) (d : Core) : Core :=
  match o with
  | .ok c => c
  | .panicked _ => d

/-- Reference identity assigned to the single `Arc<ResettablePool>`
allocation made by `Core::new`. -/
def fsPoolRef : Nat := 0

/-- Reference identity assigned to the single `Store` built by `Core::new`
(its clones share it). -/
def storeRef : Nat := 1

/-- `Core::new` (context.rs, lines 43–117), with the environment-dependent
steps (`std::env::home_dir`, `safe_create_dir_all_ioerror`, store opening,
`PosixFS::new`) resolved by `env`.  Paths are lists of components;
durations are in seconds.  Panics are returned as `InitOutcome.panicked`
with the panic message's fixed prefix. -/
def Core.new (root_subject_types : List TypeId) (tasks : Tasks)
    (types : Types) (build_root : List String)
    (ignore_patterns : List String) (work_dir : List String)
    (remote_store_server : Option String)
    (remote_execution_server : Option String) (env : Env) : InitOutcome :=
  let snapshots_dir := work_dir ++ ["snapshots"]
  let fs_pool := ResettablePool.new fsPoolRef "io-"
  let runtime := Resettable.new
  match env.home_dir with
  | none => .panicked "Could not find home dir"
  | some home_dir =>
    let store_path := home_dir ++ [".cache", "pants", "lmdb_store"]
    if env.create_dir_ok then
      let storeResult : Except String Store :=
        match remote_store_server with
        | some address =>
            Store.with_remote storeRef store_path fs_pool.ref address 1
              (1024 * 1024) 60 env
        | none => Store.local_only storeRef store_path fs_pool.ref env
      match storeResult with
      | .error _ => .panicked "Could not initialize Store"
      | .ok store =>
        let underlying_command_runner : UnderlyingCommandRunner :=
          match remote_execution_server with
          | some address => .remoteRunner address 1 store.ref
          | none => .localRunner store.ref fs_pool.ref
        let command_runner :=
          BoundedCommandRunner.new underlying_command_runner 16
        let rule_graph := RuleGraph.new tasks root_subject_types
        match PosixFS.new build_root fs_pool.ref ignore_patterns env with
        | .error _ => .panicked "Could not initialize VFS"
        | .ok vfs =>
            have _ := snapshots_dir
            .ok { graph := Graph.new, tasks := tasks,
                  rule_graph := rule_graph, types := types,
                  fs_pool := fs_pool, runtime := runtime, store := store,
                  vfs := vfs, command_runner := command_runner }
    else .panicked "Could not initialize Store"

/-- `Core::pre_fork` (context.rs, lines 119–124). -/
def Core.pre_fork (c : Core) : Core :=
  { c with
    fs_pool := c.fs_pool.reset,
    store := c.store.reset_prefork,
    runtime := c.runtime.reset,
    command_runner := c.command_runner.reset_prefork }

/-- The per-computation `Context` (context.rs, lines 127–131): a node-slot
identifier plus an `Arc` reference to the shared registry, modelled as the
allocation's reference identity paired with its contents. -/
structure ArcCore where
  ref : Nat
  val : Core
deriving Repr, DecidableEq

/-- The per-computation handle (context.rs, `Context`). -/
structure Context where
  entry_id : EntryId
  core : ArcCore
deriving Repr, DecidableEq

/-- `Context::new(entry_id, core)` (context.rs, lines 134–139). -/
def Context.new (entry_id : EntryId) (core : ArcCore) : Context :=
  { entry_id := entry_id, core := core }

/-- Modelled from the spec (§6, §9): the foreign-host handle channel of the
`handles`/`externs` modules (not under src/): handles pending release, and
the handles already released back to the host. -/
structure HostState where
  pending : List Nat
  released : List Nat
deriving Repr, DecidableEq

/-- Modelled from the spec (§6): `handles::maybe_drain_handles` —
non-blocking drain; `none` when nothing is pending. -/
def maybe_drain_handles (h : HostState) : Option (List Nat) × HostState :=
  if h.pending.isEmpty then (none, h)
  else (some h.pending, { h with pending := [] })

/-- Modelled from the spec (§6): `externs::drop_handles` — release drained
handles back to the host. -/
def drop_handles (handles : List Nat) (h : HostState) : HostState :=
  { h with released := h.released ++ handles }

/-- `Context::get` (context.rs, lines 144–150): drain-and-release any pending
foreign-host handles, then request the node's result from the computation
graph scoped to this context's `entry_id`.  Returns the context with the
registry's (interior-mutable) graph updated, the host state, and the
result. -/
def Context.get (ctx : Context) (node : Nat) (host : HostState) :
    Context × HostState × Nat :=
  let host1 :=
    match maybe_drain_handles host with
    | (some handles, h1) => drop_handles handles h1
    | (none, h1) => h1
  let (g1, output) := ctx.core.val.graph.get ctx.entry_id node
  ({ ctx with core := { ctx.core with val := { ctx.core.val with graph := g1 } } },
   host1, output)

/-- `ContextFactory::create` for `Context` (context.rs, lines 157–167):
clone this context for a new `EntryId`; the `Arc` core is shared, so this is
a shallow clone. -/
def Context.create (ctx : Context) (entry_id : EntryId) : Context :=
  { entry_id := entry_id, core := ctx.core }

/-- An environment in which every initialization step succeeds. -/
def envOk : Env :=
  { home_dir := some ["home", "u"], create_dir_ok := true,
    store_init_ok := true, vfs_ok := true }

/-- An environment with no home directory. -/
def envNoHome : Env :=
  { home_dir := none, create_dir_ok := true, store_init_ok := true,
    vfs_ok := true }

/-- An environment whose build root is inaccessible (the filesystem view
cannot be constructed). -/
def envVfsFail : Env :=
  { home_dir := some ["home", "u"], create_dir_ok := true,
    store_init_ok := true, vfs_ok := false }

/-- An environment in which the store's backing directory cannot be
created. -/
def envDirFail : Env :=
  { home_dir := some ["home", "u"], create_dir_ok := false,
    store_init_ok := true, vfs_ok := true }

/-- An environment in which the store cannot be opened. -/
def envStoreFail : Env :=
  { home_dir := some ["home", "u"], create_dir_ok := true,
    store_init_ok := false, vfs_ok := true }

/-- A placeholder registry, used only as the default of
`InitOutcome.getD`. -/
def core0 : Core :=
  { graph := Graph.new, tasks := [], rule_graph := RuleGraph.new [] [],
    types := 0, fs_pool := ResettablePool.new fsPoolRef "io-",
    runtime := Resettable.new,
    store := { ref := storeRef, path := [], pool_ref := fsPoolRef,
               mode := .localOnly, pooled := Resettable.new },
    vfs := { build_root := [], pool_ref := fsPoolRef, ignore_patterns := [] },
    command_runner :=
      BoundedCommandRunner.new (.localRunner storeRef fsPoolRef) 16 }

/-- The registry built by a concrete successful construction with both
remote addresses unset. -/
def coreLocalEx : Core :=
  (Core.new [1] [2] 3 ["br"] ["ig"] ["wd"] none none envOk).getD core0

/-- The registry built by a concrete successful construction with a remote
store address and a remote execution address. -/
def coreRemoteEx : Core :=
  (Core.new [1] [2] 3 ["br"] ["ig"] ["wd"] (some "store.addr:1")
    (some "10.0.0.1:9999") envOk).getD core0

end PantsCore

namespace PantsCore

/-- Characterization of every successful `Core::new`: construction succeeds
only when the environment provides a home directory and every fallible
initialization step succeeds, and then every field of the registry is the
one built by the constructor. -/
theorem core_new_ok_shape (rst : List TypeId) (tasks : Tasks) (types : Types)
    (build_root ignore_patterns work_dir : List String)
    (rss res : Option String) (env : Env) (core : Core)
    (hok : Core.new rst tasks types build_root ignore_patterns work_dir rss
        res env = .ok core) :
    core.graph = Graph.new ∧
    core.tasks = tasks ∧
    core.rule_graph = RuleGraph.new tasks rst ∧
    core.types = types ∧
    core.fs_pool = ResettablePool.new fsPoolRef "io-" ∧
    core.runtime = Resettable.new ∧
    core.store.ref = storeRef ∧
    core.store.pool_ref = fsPoolRef ∧
    core.store.pooled = Resettable.new ∧
    (∀ hd, env.home_dir = some hd →
      core.store.path = hd ++ [".cache", "pants", "lmdb_store"]) ∧
    env.home_dir.isSome = true ∧
    (rss = none → core.store.mode = .localOnly) ∧
    (∀ a, rss = some a →
      core.store.mode = .withRemote a 1 (1024 * 1024) 60) ∧
    core.vfs = { build_root := build_root, pool_ref := fsPoolRef,
                 ignore_patterns := ignore_patterns } ∧
    core.command_runner.bound = 16 ∧
    core.command_runner.backendPooled = Resettable.new ∧
    (res = none →
      core.command_runner.inner = .localRunner storeRef fsPoolRef) ∧
    (∀ a, res = some a →
      core.command_runner.inner = .remoteRunner a 1 storeRef) := by
  obtain ⟨hdopt, cd, si, vf⟩ := env
  cases hdopt <;> cases cd <;> cases si <;> cases vf <;> cases rss <;>
      cases res <;>
    simp [Core.new, Store.local_only, Store.with_remote, PosixFS.new] at hok
  all_goals subst hok
  all_goals
    simp [ResettablePool.new, BoundedCommandRunner.new, RuleGraph.new,
      Graph.new]

end PantsCore

namespace PantsCore

/-- C2: `pre_fork()` resets exactly the four resettable resources — the
blocking-I/O worker pool, the content store's pooled state, the async
runtime, and the execution gateway's backend-level pooled state — and leaves
every other field of the registry unchanged; in particular the computation
graph (with its memoized results), the tasks, the rule graph and the type
registry are not reset, and within the store and the gateway only the pooled
state changes. -/
theorem pre_fork_resets_exactly_four_resources (c : Core) :
    c.pre_fork.fs_pool = c.fs_pool.reset ∧
    c.pre_fork.store = c.store.reset_prefork ∧
    c.pre_fork.runtime = c.runtime.reset ∧
    c.pre_fork.command_runner = c.command_runner.reset_prefork ∧
    c.pre_fork.store.path = c.store.path ∧
    c.pre_fork.store.pool_ref = c.store.pool_ref ∧
    c.pre_fork.store.mode = c.store.mode ∧
    c.pre_fork.store.ref = c.store.ref ∧
    c.pre_fork.command_runner.inner = c.command_runner.inner ∧
    c.pre_fork.command_runner.bound = c.command_runner.bound ∧
    c.pre_fork.fs_pool.ref = c.fs_pool.ref ∧
    c.pre_fork.fs_pool.name = c.fs_pool.name ∧
    c.pre_fork.graph = c.graph ∧
    c.pre_fork.tasks = c.tasks ∧
    c.pre_fork.rule_graph = c.rule_graph ∧
    c.pre_fork.types = c.types ∧
    c.pre_fork.vfs = c.vfs :=
  ⟨rfl, rfl, rfl, rfl, rfl, rfl, rfl, rfl, rfl, rfl, rfl, rfl, rfl, rfl, rfl,
   rfl, rfl⟩

/-- C6: `pre_fork()` is idempotent — calling it twice in a row leaves the
registry in the same state as calling it once — and after the two calls the
next `get()` on each of the four resettable resources succeeds and produces
a newly constructed instance. -/
theorem pre_fork_idempotent (c : Core) :
    c.pre_fork.pre_fork = c.pre_fork ∧
    c.pre_fork.pre_fork.fs_pool.holder.rebuildsOnNextGet ∧
    c.pre_fork.pre_fork.store.pooled.rebuildsOnNextGet ∧
    c.pre_fork.pre_fork.runtime.rebuildsOnNextGet ∧
    c.pre_fork.pre_fork.command_runner.backendPooled.rebuildsOnNextGet :=
  ⟨rfl, ⟨rfl, rfl, rfl, rfl⟩, ⟨rfl, rfl, rfl, rfl⟩, ⟨rfl, rfl, rfl, rfl⟩,
   ⟨rfl, rfl, rfl, rfl⟩⟩

/-- C7: every `Context::get(node)` call first drains the pending
foreign-host handles and releases them back to the host (a no-op when none
are pending), and then requests the result for `node` from the computation
graph scoped to this context's node-slot identifier; the drain happens on
every call (for every starting host state), and nothing else about the
context or registry changes. -/
theorem context_get_drains_then_requests_scoped (ctx : Context) (node : Nat)
    (host : HostState) :
    (ctx.get node host).2.1.pending = [] ∧
    (ctx.get node host).2.1.released = host.released ++ host.pending ∧
    (ctx.get node host).1.core.val.graph.requests
      = ctx.core.val.graph.requests ++ [(ctx.entry_id, node)] ∧
    (ctx.get node host).2.2 = (ctx.core.val.graph.memo.lookup node).getD 0 ∧
    (ctx.get node host).1.entry_id = ctx.entry_id ∧
    (ctx.get node host).1.core.ref = ctx.core.ref ∧
    (ctx.get node host).1.core.val.graph.memo = ctx.core.val.graph.memo ∧
    (ctx.get node host).1.core.val.tasks = ctx.core.val.tasks ∧
    (ctx.get node host).1.core.val.rule_graph = ctx.core.val.rule_graph ∧
    (ctx.get node host).1.core.val.types = ctx.core.val.types ∧
    (ctx.get node host).1.core.val.fs_pool = ctx.core.val.fs_pool ∧
    (ctx.get node host).1.core.val.runtime = ctx.core.val.runtime ∧
    (ctx.get node host).1.core.val.store = ctx.core.val.store ∧
    (ctx.get node host).1.core.val.vfs = ctx.core.val.vfs ∧
    (ctx.get node host).1.core.val.command_runner
      = ctx.core.val.command_runner := by
  obtain ⟨pending, released⟩ := host
  cases pending <;>
    simp [Context.get, maybe_drain_handles, drop_handles, Graph.get]

/-- C8: the factory operation `create(entry_id)` returns a new context whose
`entry_id` is the given identifier and whose registry reference is the very
same shared reference as the parent's (same allocation identity, same
contents — a reference-count bump, not a deep copy); the registry's contents
are not mutated. -/
theorem context_create_shallow_shared_core (ctx : Context) (entry_id : EntryId) :
    (ctx.create entry_id).entry_id = entry_id ∧
    (ctx.create entry_id).core = ctx.core ∧
    (ctx.create entry_id).core.ref = ctx.core.ref ∧
    (ctx.create entry_id).core.val = ctx.core.val :=
  ⟨rfl, rfl, rfl, rfl⟩

end PantsCore

namespace PantsCore

/-- C1: refuted on the code — at each initialization failure (inaccessible
build root, store backing directory cannot be created, store cannot be
opened) `Core::new` panics (terminating the process) instead of returning a
structured initialization error; the constructor's return type offers no
error channel at all.  This evaluates the constructor at concrete failing
inputs. -/
theorem core_new_panics_on_init_failure :
    Core.new [1] [2] 3 ["inaccessible"] [] ["wd"] none none envVfsFail
      = .panicked "Could not initialize VFS" ∧
    Core.new [1] [2] 3 ["br"] [] ["wd"] none none envDirFail
      = .panicked "Could not initialize Store" ∧
    Core.new [1] [2] 3 ["br"] [] ["wd"] none none envStoreFail
      = .panicked "Could not initialize Store" :=
  ⟨rfl, rfl, rfl⟩

/-- C3: if the remote-execution address is `None` the gateway wraps a local
backend built from the registry's store and worker pool; if it is
`Some(address)` the gateway wraps a remote backend holding exactly that
address, and `run` dispatches to that address. -/
theorem core_new_backend_selection (rst : List TypeId) (tasks : Tasks)
    (types : Types) (build_root ignore_patterns work_dir : List String)
    (rss res : Option String) (env : Env) (core : Core)
    (hok : Core.new rst tasks types build_root ignore_patterns work_dir rss
        res env = .ok core) :
    (res = none →
      core.command_runner.inner
        = .localRunner core.store.ref core.fs_pool.ref) ∧
    (∀ a, res = some a →
      core.command_runner.inner = .remoteRunner a 1 core.store.ref ∧
      core.command_runner.dispatchAddress = some a) := by
  obtain ⟨-, -, -, -, hfs, -, hsref, -, -, -, -, -, -, -, -, -, hloc, hrem⟩ :=
    core_new_ok_shape _ _ _ _ _ _ _ _ _ _ hok
  refine ⟨fun hres => ?_, fun a hres => ⟨?_, ?_⟩⟩
  · simp [hloc hres, hsref, hfs, ResettablePool.new]
  · simp [hrem a hres, hsref]
  · simp [BoundedCommandRunner.dispatchAddress, hrem a hres]

/-- C3 witness: a concrete construction with the remote-execution address
set to 10.0.0.1:9999 yields a remote backend with exactly that address. -/
theorem core_new_backend_selection_witness :
    Core.new [1] [2] 3 ["br"] ["ig"] ["wd"] (some "store.addr:1")
        (some "10.0.0.1:9999") envOk = .ok coreRemoteEx ∧
    coreRemoteEx.command_runner.inner
      = .remoteRunner "10.0.0.1:9999" 1 coreRemoteEx.store.ref ∧
    coreRemoteEx.command_runner.dispatchAddress = some "10.0.0.1:9999" := by
  have h := core_new_backend_selection [1] [2] 3 ["br"] ["ig"] ["wd"]
    (some "store.addr:1") (some "10.0.0.1:9999") envOk coreRemoteEx rfl
  exact ⟨rfl, (h.2 "10.0.0.1:9999" rfl).1, (h.2 "10.0.0.1:9999" rfl).2⟩

end PantsCore

namespace PantsCore

/-- C4: every successful `Core::new` builds the worker pool, the resettable
async runtime, the content store in local-only mode when no remote store
address is supplied and in local-plus-remote mode when one is, the
filesystem view from the build root and ignore patterns (over the same
pool), and the execution backend wrapped in a bounded gateway at the fixed
concurrency limit; the graph, tasks, rule graph and type registry are also
installed. -/
theorem core_new_builds_all_components (rst : List TypeId) (tasks : Tasks)
    (types : Types) (build_root ignore_patterns work_dir : List String)
    (rss res : Option String) (env : Env) (core : Core)
    (hok : Core.new rst tasks types build_root ignore_patterns work_dir rss
        res env = .ok core) :
    core.fs_pool = ResettablePool.new fsPoolRef "io-" ∧
    core.runtime = Resettable.new ∧
    (rss = none → core.store.mode = .localOnly) ∧
    (∀ a, rss = some a →
      ∃ reps chunk tmo, core.store.mode = .withRemote a reps chunk tmo) ∧
    core.store.pool_ref = core.fs_pool.ref ∧
    core.vfs = { build_root := build_root, pool_ref := core.fs_pool.ref,
                 ignore_patterns := ignore_patterns } ∧
    core.command_runner.bound = 16 ∧
    core.graph = Graph.new ∧
    core.tasks = tasks ∧
    core.rule_graph = RuleGraph.new tasks rst ∧
    core.types = types := by
  obtain ⟨hg, ht, hrg, hty, hfs, hrt, hsref, hspool, -, -, -, hlocm, hremm,
    hvfs, hbound, -, -, -⟩ := core_new_ok_shape _ _ _ _ _ _ _ _ _ _ hok
  refine ⟨hfs, hrt, hlocm,
    fun a ha => ⟨1, 1024 * 1024, 60, hremm a ha⟩, ?_, ?_, hbound, hg, ht,
    hrg, hty⟩
  · simp [hspool, hfs, ResettablePool.new]
  · simp [hvfs, hfs, ResettablePool.new]

/-- C4 witness: a concrete construction with both remote addresses unset
succeeds, with a local-only store and the gateway bound at 16. -/
theorem core_new_builds_all_components_witness :
    Core.new [1] [2] 3 ["br"] ["ig"] ["wd"] none none envOk
      = .ok coreLocalEx ∧
    coreLocalEx.store.mode = .localOnly ∧
    coreLocalEx.command_runner.bound = 16 := by
  have h := core_new_builds_all_components [1] [2] 3 ["br"] ["ig"] ["wd"]
    none none envOk coreLocalEx rfl
  exact ⟨rfl, h.2.2.1 rfl, h.2.2.2.2.2.2.1⟩

/-- C5: the fixed policy constants of the reference construction — the
execution concurrency limit is 16, and whenever the remote store tier is
constructed it gets replica count 1, maximum chunk size 1 MiB (1024·1024
bytes), and a 60-second request timeout. -/
theorem core_new_fixed_policy_constants (rst : List TypeId) (tasks : Tasks)
    (types : Types) (build_root ignore_patterns work_dir : List String)
    (rss res : Option String) (env : Env) (core : Core)
    (hok : Core.new rst tasks types build_root ignore_patterns work_dir rss
        res env = .ok core) :
    core.command_runner.bound = 16 ∧
    (∀ a, rss = some a →
      core.store.mode = .withRemote a 1 (1024 * 1024) 60) := by
  obtain ⟨-, -, -, -, -, -, -, -, -, -, -, -, hremm, -, hbound, -, -, -⟩ :=
    core_new_ok_shape _ _ _ _ _ _ _ _ _ _ hok
  exact ⟨hbound, hremm⟩

/-- C5 witness: a concrete construction with a remote store address yields
the gateway bound 16 and a remote store tier with replicas 1, chunk size
1048576 bytes and timeout 60 s. -/
theorem core_new_fixed_policy_constants_witness :
    Core.new [1] [2] 3 ["br"] ["ig"] ["wd"] (some "store.addr:1")
        (some "10.0.0.1:9999") envOk = .ok coreRemoteEx ∧
    coreRemoteEx.command_runner.bound = 16 ∧
    coreRemoteEx.store.mode
      = .withRemote "store.addr:1" 1 (1024 * 1024) 60 := by
  have h := core_new_fixed_policy_constants [1] [2] 3 ["br"] ["ig"] ["wd"]
    (some "store.addr:1") (some "10.0.0.1:9999") envOk coreRemoteEx rfl
  exact ⟨rfl, h.1, h.2 "store.addr:1" rfl⟩

/-- C9: the store's local directory is always
`<home>/.cache/pants/lmdb_store`, independent of `build_root` and
`work_dir`; the snapshots directory derived from `work_dir` is never used
(the whole construction is invariant in `work_dir`); and a missing home
directory aborts construction (a panic). -/
theorem store_path_under_home_and_work_dir_unused :
    (∀ rst tasks types build_root ignore_patterns work_dir rss res env hd
        core,
      env.home_dir = some hd →
      Core.new rst tasks types build_root ignore_patterns work_dir rss res
          env = .ok core →
      core.store.path = hd ++ [".cache", "pants", "lmdb_store"]) ∧
    (∀ rst tasks types build_root ignore_patterns w1 w2 rss res env,
      Core.new rst tasks types build_root ignore_patterns w1 rss res env
        = Core.new rst tasks types build_root ignore_patterns w2 rss res
            env) ∧
    (∀ rst tasks types build_root ignore_patterns work_dir rss res env,
      env.home_dir = none →
      Core.new rst tasks types build_root ignore_patterns work_dir rss res
          env = .panicked "Could not find home dir") := by
  refine ⟨?_, ?_, ?_⟩
  · intro rst tasks types br ig wd rss res env hd core hh hok
    obtain ⟨-, -, -, -, -, -, -, -, -, hpath, -⟩ :=
      core_new_ok_shape _ _ _ _ _ _ _ _ _ _ hok
    exact hpath hd hh
  · intro rst tasks types br ig w1 w2 rss res env
    obtain ⟨hdopt, cd, si, vf⟩ := env
    cases hdopt <;> cases cd <;> cases si <;> cases vf <;> cases rss <;>
      cases res <;> rfl
  · intro rst tasks types br ig wd rss res env hh
    obtain ⟨hdopt, cd, si, vf⟩ := env
    simp only [Env.home_dir] at hh
    subst hh
    rfl

/-- C9 witness: with home directory `home/u` the store path is
`home/u/.cache/pants/lmdb_store`, and with no home directory construction
panics. -/
theorem store_path_under_home_witness :
    coreLocalEx.store.path = ["home", "u", ".cache", "pants", "lmdb_store"] ∧
    Core.new [1] [2] 3 ["br"] ["ig"] ["wd"] none none envNoHome
      = .panicked "Could not find home dir" := by
  constructor
  · exact store_path_under_home_and_work_dir_unused.1 [1] [2] 3 ["br"]
      ["ig"] ["wd"] none none envOk ["home", "u"] coreLocalEx rfl rfl
  · exact store_path_under_home_and_work_dir_unused.2.2 [1] [2] 3 ["br"]
      ["ig"] ["wd"] none none envNoHome rfl

/-- C10: in every successful construction the execution backend is built
over the very store instance the registry exposes (same reference
identity), and the local backend additionally over the registry's own
blocking-I/O worker pool. -/
theorem backend_shares_store_and_pool (rst : List TypeId) (tasks : Tasks)
    (types : Types) (build_root ignore_patterns work_dir : List String)
    (rss res : Option String) (env : Env) (core : Core)
    (hok : Core.new rst tasks types build_root ignore_patterns work_dir rss
        res env = .ok core) :
    (∀ sr pr, core.command_runner.inner = .localRunner sr pr →
      sr = core.store.ref ∧ pr = core.fs_pool.ref) ∧
    (∀ a p sr, core.command_runner.inner = .remoteRunner a p sr →
      sr = core.store.ref) := by
  obtain ⟨-, -, -, -, hfs, -, hsref, -, -, -, -, -, -, -, -, -, hloc,
    hrem⟩ := core_new_ok_shape _ _ _ _ _ _ _ _ _ _ hok
  constructor
  · intro sr pr h
    cases res with
    | none =>
        rw [hloc rfl] at h
        injection h with h1 h2
        subst h1
        subst h2
        exact ⟨hsref.symm, by simp [hfs, ResettablePool.new]⟩
    | some a =>
        rw [hrem a rfl] at h
        simp at h
  · intro a p sr h
    cases res with
    | none =>
        rw [hloc rfl] at h
        simp at h
    | some b =>
        rw [hrem b rfl] at h
        injection h with h1 h2 h3
        subst h3
        exact hsref.symm

/-- C10 witness: in the concrete local construction the backend's store and
pool references are the registry's, and in the concrete remote one the
backend's store reference is the registry's. -/
theorem backend_shares_store_and_pool_witness :
    Core.new [1] [2] 3 ["br"] ["ig"] ["wd"] none none envOk
      = .ok coreLocalEx ∧
    storeRef = coreLocalEx.store.ref ∧
    fsPoolRef = coreLocalEx.fs_pool.ref ∧
    storeRef = coreRemoteEx.store.ref := by
  have hl := backend_shares_store_and_pool [1] [2] 3 ["br"] ["ig"] ["wd"]
    none none envOk coreLocalEx rfl
  have hr := backend_shares_store_and_pool [1] [2] 3 ["br"] ["ig"] ["wd"]
    (some "store.addr:1") (some "10.0.0.1:9999") envOk coreRemoteEx rfl
  have h1 := hl.1 storeRef fsPoolRef rfl
  have h2 := hr.2 "10.0.0.1:9999" 1 storeRef rfl
  exact ⟨rfl, h1.1, h1.2, h2⟩

end PantsCore
